import Mathlib

/-!
Verification of the volumetric-cloud viewer (domain crate).

The development shallowly embeds the parts of the source that the
claims concern:

* `BoundingBox::dst` (src/domain/src/object/objects/bounding_box.rs) over an
  IEEE-style value type `F32` (rationals extended with infinities and NaN),
  since the slab test deliberately relies on division by zero producing
  infinities.
* the scene-command layer (src/domain/src/facade/command/scene_command.rs)
  over a rational-valued scene model;
* the arcball camera (src/domain/src/object/camera.rs) over the reals;
* the per-pixel ray-march loop of `DrawVisitor::visit_cloud`
  (src/domain/src/visitor/draw_visitor.rs) over the reals.
-/

/- ## IEEE-style scalar model for the slab test

`F32` models the f32 values that can flow through `BoundingBox::dst`:
finite values (idealised as exact rationals, so rounding is not modelled;
all comparisons, `min`, `max` are exact in IEEE anyway), the two
infinities, and NaN.  Negative zero is collapsed onto zero; divisions by
zero use the sign convention of a positive zero divisor, exactly the
situation in the source where zero ray-direction components arise. -/
inductive F32 where
  | nan : F32
  | ninf : F32
  | fin : ℚ → F32
  | pinf : F32
deriving DecidableEq

namespace F32

/-- IEEE subtraction, as used for `max - ray_origin` and `dst_b - dst_to_box`. -/
def fsub : F32 → F32 → F32
  | nan, _ => nan
  | _, nan => nan
  | pinf, pinf => nan
  | pinf, ninf => pinf
  | pinf, fin _ => pinf
  | ninf, ninf => nan
  | ninf, pinf => ninf
  | ninf, fin _ => ninf
  | fin _, pinf => ninf
  | fin _, ninf => pinf
  | fin a, fin b => fin (a - b)

/-- IEEE division for the slab test `(min - O) / D`.  A finite nonzero
numerator over zero yields a signed infinity (the divisor zero is the
positive zero of the source's ray directions); `0/0` and `inf/inf` are NaN. -/
def fdiv : F32 → F32 → F32
  | nan, _ => nan
  | _, nan => nan
  | pinf, pinf => nan
  | pinf, ninf => nan
  | ninf, pinf => nan
  | ninf, ninf => nan
  | pinf, fin b => if 0 ≤ b then pinf else ninf
  | ninf, fin b => if 0 ≤ b then ninf else pinf
  | fin _, pinf => fin 0
  | fin _, ninf => fin 0
  | fin a, fin b =>
      if b = 0 then (if a = 0 then nan else if 0 < a then pinf else ninf)
      else fin (a / b)

/-- Rust's `f32::min` (`if self < other { self } else { other }`): if one
operand is NaN, the other is returned. -/
def fmin : F32 → F32 → F32
  | nan, y => y
  | x, nan => x
  | ninf, _ => ninf
  | _, ninf => ninf
  | fin a, fin b => if a < b then fin a else fin b
  | fin a, pinf => fin a
  | pinf, fin b => fin b
  | pinf, pinf => pinf

/-- Rust's `f32::max` (`if self < other { other } else { self }`): if one
operand is NaN, the other is returned. -/
def fmax : F32 → F32 → F32
  | nan, y => y
  | x, nan => x
  | pinf, _ => pinf
  | _, pinf => pinf
  | fin a, fin b => if a < b then fin b else fin a
  | fin a, ninf => fin a
  | ninf, fin b => fin b
  | ninf, ninf => ninf

/-- IEEE `≤` comparison: any comparison with NaN is false. -/
def fle : F32 → F32 → Bool
  | nan, _ => false
  | _, nan => false
  | ninf, _ => true
  | _, ninf => false
  | fin a, fin b => decide (a ≤ b)
  | fin _, pinf => true
  | pinf, fin _ => false
  | pinf, pinf => true

end F32

/-- Componentwise 3-vector of `F32` values. -/
structure Vec3F where
  x : F32
  y : F32
  z : F32
deriving DecidableEq

namespace Vec3F

def vsub (a b : Vec3F) : Vec3F := ⟨a.x.fsub b.x, a.y.fsub b.y, a.z.fsub b.z⟩

def vdiv (a b : Vec3F) : Vec3F := ⟨a.x.fdiv b.x, a.y.fdiv b.y, a.z.fdiv b.z⟩

def vmin (a b : Vec3F) : Vec3F := ⟨a.x.fmin b.x, a.y.fmin b.y, a.z.fmin b.z⟩

def vmax (a b : Vec3F) : Vec3F := ⟨a.x.fmax b.x, a.y.fmax b.y, a.z.fmax b.z⟩

end Vec3F

/-- `BoundingBox` as in src/domain/src/object/objects/bounding_box.rs. -/
structure BoundingBoxF where
  min : Vec3F
  max : Vec3F
deriving DecidableEq

namespace BoundingBoxF

/-- `BoundingBox::dst` (bounding_box.rs, lines 53-67): slab test returning
`(dst_to_box, dst_inside_box)`. -/
def dst (bb : BoundingBoxF) (rayOrigin rayDir : Vec3F) : F32 × F32 :=
  let t0 := (bb.min.vsub rayOrigin).vdiv rayDir
  let t1 := (bb.max.vsub rayOrigin).vdiv rayDir
  let tmin := t0.vmin t1
  let tmax := t0.vmax t1
  let dstA := (tmin.x.fmax tmin.y).fmax tmin.z
  let dstB := (tmax.x.fmin tmax.y).fmin tmax.z
  let dstToBox := (F32.fin 0).fmax dstA
  let dstInsideBox := (F32.fin 0).fmax (dstB.fsub dstToBox)
  (dstToBox, dstInsideBox)

end BoundingBoxF

/-- The bounding box of the source test `test_bb` (bounding_box.rs, lines
114-121), built from corners `(-1, 1, -1)` and `(1, 1.5, 1)`. -/
def testBB : BoundingBoxF :=
  ⟨⟨F32.fin (-1), F32.fin 1, F32.fin (-1)⟩,
   ⟨F32.fin 1, F32.fin (3/2), F32.fin 1⟩⟩

/- ## Scene model and scene commands

The command layer lives in src/domain/src/facade/command/scene_command.rs.
The scene manager (`get_mut_object`, `add_object`) and the `Sun`, `Cloud`,
`Grid` component types are not among the provided sources; they are
modelled from the spec (sections 3, 4.C, 4.E) below.  f32 payloads are
idealised as rationals: the commands only store them, so the numeric type
is irrelevant to the claims. -/

/-- Rational 3-vector payload (glam `Vec3`). -/
structure Vec3Q where
  x : ℚ
  y : ℚ
  z : ℚ
deriving DecidableEq

/-- Rational 4-vector payload (glam `Vec4`). -/
structure Vec4Q where
  x : ℚ
  y : ℚ
  z : ℚ
  w : ℚ
deriving DecidableEq

/-- 8-bit RGBA color (egui `Color32`). -/
structure Color32 where
  r : ℕ
  g : ℕ
  b : ℕ
  a : ℕ
deriving DecidableEq

/-- Modelled from the spec: `WorleyBuilder`
(src/domain/src/object/objects/texture3d.rs is not among the provided
sources).  Section 4.B: "The builder record captures seed, frequency per
channel, octaves, and persistence". -/
structure WorleyBuilder where
  seed : ℕ
  frequency : Vec4Q
  octaves : ℕ
  persistence : ℚ
deriving DecidableEq

/-- Modelled from the spec: the `Cloud` parameter bag
(src/domain/src/object/objects/cloud.rs is not among the provided
sources).  Fields are exactly the ones the scene commands write (spec
section 3, "Cloud parameters"); the two noise volumes are represented by
the builder records that determine them, since section 4.B says rebuilding
synchronously replaces the volume from the builder. -/
structure Cloud where
  numSteps : ℕ
  numStepsLight : ℕ
  cloudScale : ℚ
  densityMultiplier : ℚ
  densityThreshold : ℚ
  densityOffset : ℚ
  offset : Vec3Q
  alphaThreshold : ℕ
  noise : WorleyBuilder
  detailNoise : WorleyBuilder
  detailNoiseScale : ℚ
  detailNoiseWeight : ℚ
  detailWeights : Vec4Q
  shapeNoiseWeights : Vec4Q
  phaseParams : Vec4Q
  shapeOffset : Vec3Q
  detailOffset : Vec3Q
  lightAbsorptionTowardSun : ℚ
  lightAbsorptionThroughCloud : ℚ
  darknessThreshold : ℚ
  rayOffsetStrength : ℚ
  lightColor : Color32
  colA : Color32
  colB : Color32
  heightMapFactor : ℚ
  volumeOffset : ℚ
  edgeDistance : ℚ
deriving DecidableEq

/-- Modelled from the spec: `Sun = {distance, angle}` (section 3;
src/domain/src/object/objects/sun.rs is not among the provided sources). -/
structure Sun where
  d : ℚ
  angle : ℚ
deriving DecidableEq

/-- Modelled from the spec: `sun.set_d(d)` sets the sun's distance
(section 4.F: "set sun distance/angle"). -/
def Sun.setD (s : Sun) (v : ℚ) : Sun := { s with d := v }

/-- Modelled from the spec: the sun-angle command sets the sun's angle
(section 4.F: "set sun distance/angle").  The source calls this method
`prepend_angle`; its body is not among the provided sources, so it is
modelled from the spec's words as a setter. -/
def Sun.prependAngle (s : Sun) (v : ℚ) : Sun := { s with angle := v }

/-- Modelled from the spec: the `Grid` component (section 4.G: spacing
`scale/k`; its source is not among the provided files). -/
structure Grid where
  k : ℤ
  scale : ℚ
deriving DecidableEq

/-- Modelled from the spec: the camera component's state
`(pivot, distance, yaw, pitch)` (section 3), rational-valued here because
scene commands never touch it. -/
structure CameraQ where
  pivot : Vec3Q
  distance : ℚ
  yaw : ℚ
  pitch : ℚ
deriving DecidableEq

/-- Rational bounding box, as stored in a scene component. -/
structure BoundingBoxQ where
  min : Vec3Q
  max : Vec3Q
deriving DecidableEq

/-- `Component`: the tagged sum `Cloud | Sun | Grid | BoundingBox | Camera`
(spec section 3; src/domain/src/object/mod.rs is not among the provided
sources). -/
inductive Component where
  | cloud : Cloud → Component
  | sun : Sun → Component
  | grid : Grid → Component
  | boundingBox : BoundingBoxQ → Component
  | camera : CameraQ → Component
deriving DecidableEq

namespace Component

def isCloud : Component → Bool
  | cloud _ => true
  | _ => false

def isSun : Component → Bool
  | sun _ => true
  | _ => false

/-- Apply `g` to a component when it is a `Cloud`; this is the
`if let Component::Cloud(cloud) = i { ... }` body of the Set* branches of
`SceneCommand::exec`. -/
def mapCloud (g : Cloud → Cloud) : Component → Component
  | cloud c => cloud (g c)
  | c => c

/-- Apply `g` to a component when it is a `Sun`; this is the
`if let Some(Component::Sun(sun)) = ...` body of the sun branches of
`SceneCommand::exec`. -/
def mapSun (g : Sun → Sun) : Component → Component
  | sun s => sun (g s)
  | c => c

end Component

/-- Modelled from the spec: `Scene = insertion-ordered mapping from name to
a list of Components` (section 3; the scene-manager source is not among
the provided files).  An association list whose key order is insertion
order. -/
abbrev Scene := List (String × List Component)

/-- Modelled from the spec: `get_object(name)` — first entry with the
given name. -/
def lookupScene (n : String) : Scene → Option (List Component)
  | [] => none
  | (k, l) :: rest => if k = n then some l else lookupScene n rest

/-- Mutate through `get_mut_object(name)`: if the name is present, apply
`g` to every component of its list (the `for i in comp` loops of
`SceneCommand::exec`); if the name is absent, leave the scene unchanged
(the `if let Some(comp)` guard). -/
def mapAt (n : String) (g : Component → Component) : Scene → Scene
  | [] => []
  | (k, l) :: rest =>
      if k = n then (k, l.map g) :: rest else (k, l) :: mapAt n g rest

/-- Modelled from the spec: `add_object(name, component)` "appends to the
list at `name` (creating the entry if absent)" (section 4.E). -/
def addObject (n : String) (c : Component) : Scene → Scene
  | [] => [(n, [c])]
  | (k, l) :: rest =>
      if k = n then (k, l ++ [c]) :: rest else (k, l) :: addObject n c rest

/-- `SceneCommand` (scene_command.rs, lines 9-48). -/
inductive SceneCommand where
  | AddObject : String → Component → SceneCommand
  | GetObject : Component → SceneCommand
  | RemoveObject : Component → SceneCommand
  | SetNumSteps : String → ℕ → SceneCommand
  | SetNumStepsLight : String → ℕ → SceneCommand
  | SetCloudScale : String → ℚ → SceneCommand
  | SetDensityMultiplier : String → ℚ → SceneCommand
  | SetDensityThreshold : String → ℚ → SceneCommand
  | SetDensityOffset : String → ℚ → SceneCommand
  | SetOffset : String → Vec3Q → SceneCommand
  | SetAlphaThreshold : String → ℕ → SceneCommand
  | SetNoise : String → WorleyBuilder → SceneCommand
  | SetDetailNoise : String → WorleyBuilder → SceneCommand
  | SetDetailNoiseScale : String → ℚ → SceneCommand
  | SetDetailNoiseWeight : String → ℚ → SceneCommand
  | SetDetailWeights : String → Vec4Q → SceneCommand
  | SetShapeNoiseWeights : String → Vec4Q → SceneCommand
  | SetPhaseParams : String → Vec4Q → SceneCommand
  | SetShapeOffset : String → Vec3Q → SceneCommand
  | SetDetailOffset : String → Vec3Q → SceneCommand
  | SetLightAbsorptionTowardSun : String → ℚ → SceneCommand
  | SetLightAbsorptionThroughCloud : String → ℚ → SceneCommand
  | SetDarknessThreshold : String → ℚ → SceneCommand
  | SetRayOffsetStrength : String → ℚ → SceneCommand
  | SetLightColor : String → Color32 → SceneCommand
  | SetColA : String → Color32 → SceneCommand
  | SetColB : String → Color32 → SceneCommand
  | SetHeightMapFactor : String → ℚ → SceneCommand
  | SetVolumeOffset : String → ℚ → SceneCommand
  | SetEdgeDistance : String → ℚ → SceneCommand
  | SetSunDistance : String → ℚ → SceneCommand
  | SetSunAngle : String → ℚ → SceneCommand
deriving DecidableEq

namespace SceneCommand

/-- `SceneCommand::exec` (scene_command.rs, lines 52-377) restricted to its
effect on the scene: each Set* branch looks the target up by name and
writes the payload into every `Cloud` (resp. the `Sun`) found there;
`AddObject` appends; `GetObject` and `RemoveObject` only log. -/
def exec : SceneCommand → Scene → Scene
  | AddObject n c, s => addObject n c s
  | GetObject _, s => s
  | RemoveObject _, s => s
  | SetNumSteps n v, s => mapAt n (Component.mapCloud (fun c => { c with numSteps := v })) s
  | SetNumStepsLight n v, s => mapAt n (Component.mapCloud (fun c => { c with numStepsLight := v })) s
  | SetCloudScale n v, s => mapAt n (Component.mapCloud (fun c => { c with cloudScale := v })) s
  | SetDensityMultiplier n v, s => mapAt n (Component.mapCloud (fun c => { c with densityMultiplier := v })) s
  | SetDensityThreshold n v, s => mapAt n (Component.mapCloud (fun c => { c with densityThreshold := v })) s
  | SetDensityOffset n v, s => mapAt n (Component.mapCloud (fun c => { c with densityOffset := v })) s
  | SetOffset n v, s => mapAt n (Component.mapCloud (fun c => { c with offset := v })) s
  | SetAlphaThreshold n v, s => mapAt n (Component.mapCloud (fun c => { c with alphaThreshold := v })) s
  | SetNoise n v, s => mapAt n (Component.mapCloud (fun c => { c with noise := v })) s
  | SetDetailNoise n v, s => mapAt n (Component.mapCloud (fun c => { c with detailNoise := v })) s
  | SetDetailNoiseScale n v, s => mapAt n (Component.mapCloud (fun c => { c with detailNoiseScale := v })) s
  | SetDetailNoiseWeight n v, s => mapAt n (Component.mapCloud (fun c => { c with detailNoiseWeight := v })) s
  | SetDetailWeights n v, s => mapAt n (Component.mapCloud (fun c => { c with detailWeights := v })) s
  | SetShapeNoiseWeights n v, s => mapAt n (Component.mapCloud (fun c => { c with shapeNoiseWeights := v })) s
  | SetPhaseParams n v, s => mapAt n (Component.mapCloud (fun c => { c with phaseParams := v })) s
  | SetShapeOffset n v, s => mapAt n (Component.mapCloud (fun c => { c with shapeOffset := v })) s
  | SetDetailOffset n v, s => mapAt n (Component.mapCloud (fun c => { c with detailOffset := v })) s
  | SetLightAbsorptionTowardSun n v, s => mapAt n (Component.mapCloud (fun c => { c with lightAbsorptionTowardSun := v })) s
  | SetLightAbsorptionThroughCloud n v, s => mapAt n (Component.mapCloud (fun c => { c with lightAbsorptionThroughCloud := v })) s
  | SetDarknessThreshold n v, s => mapAt n (Component.mapCloud (fun c => { c with darknessThreshold := v })) s
  | SetRayOffsetStrength n v, s => mapAt n (Component.mapCloud (fun c => { c with rayOffsetStrength := v })) s
  | SetLightColor n v, s => mapAt n (Component.mapCloud (fun c => { c with lightColor := v })) s
  | SetColA n v, s => mapAt n (Component.mapCloud (fun c => { c with colA := v })) s
  | SetColB n v, s => mapAt n (Component.mapCloud (fun c => { c with colB := v })) s
  | SetHeightMapFactor n v, s => mapAt n (Component.mapCloud (fun c => { c with heightMapFactor := v })) s
  | SetVolumeOffset n v, s => mapAt n (Component.mapCloud (fun c => { c with volumeOffset := v })) s
  | SetEdgeDistance n v, s => mapAt n (Component.mapCloud (fun c => { c with edgeDistance := v })) s
  | SetSunDistance n v, s => mapAt n (Component.mapSun (fun su => su.setD v)) s
  | SetSunAngle n v, s => mapAt n (Component.mapSun (fun su => su.prependAngle v)) s

/-- The Set* variants of `SceneCommand` (scene_command.rs, lines 14-47). -/
def isSet : SceneCommand → Bool
  | AddObject _ _ => false
  | GetObject _ => false
  | RemoveObject _ => false
  | _ => true

/-- The name a command addresses, when it has one. -/
def targetName : SceneCommand → Option String
  | AddObject n _ => some n
  | GetObject _ => none
  | RemoveObject _ => none
  | SetNumSteps n _ => some n
  | SetNumStepsLight n _ => some n
  | SetCloudScale n _ => some n
  | SetDensityMultiplier n _ => some n
  | SetDensityThreshold n _ => some n
  | SetDensityOffset n _ => some n
  | SetOffset n _ => some n
  | SetAlphaThreshold n _ => some n
  | SetNoise n _ => some n
  | SetDetailNoise n _ => some n
  | SetDetailNoiseScale n _ => some n
  | SetDetailNoiseWeight n _ => some n
  | SetDetailWeights n _ => some n
  | SetShapeNoiseWeights n _ => some n
  | SetPhaseParams n _ => some n
  | SetShapeOffset n _ => some n
  | SetDetailOffset n _ => some n
  | SetLightAbsorptionTowardSun n _ => some n
  | SetLightAbsorptionThroughCloud n _ => some n
  | SetDarknessThreshold n _ => some n
  | SetRayOffsetStrength n _ => some n
  | SetLightColor n _ => some n
  | SetColA n _ => some n
  | SetColB n _ => some n
  | SetHeightMapFactor n _ => some n
  | SetVolumeOffset n _ => some n
  | SetEdgeDistance n _ => some n
  | SetSunDistance n _ => some n
  | SetSunAngle n _ => some n

/-- The component kind a command's Set* branch addresses: `true` when the
branch writes clouds, `false` when it writes the sun (only meaningful for
Set* commands). -/
def addressesCloud : SceneCommand → Bool
  | SetSunDistance _ _ => false
  | SetSunAngle _ _ => false
  | _ => true

/-- "The target name is absent from the scene, or no component at that
name has the kind the command addresses" — the miss condition of the
claim, decided on the scene.  Commands without a target name (`GetObject`,
`RemoveObject`) address nothing, hence trivially miss. -/
def missesB (cmd : SceneCommand) (s : Scene) : Bool :=
  match targetName cmd with
  | none => true
  | some n =>
      match lookupScene n s with
      | none => true
      | some l =>
          if isSet cmd then
            if addressesCloud cmd then l.all (fun c => !c.isCloud)
            else l.all (fun c => !c.isSun)
          else false

end SceneCommand

/- ## Arcball camera (src/domain/src/object/camera.rs)

The camera state is real-valued: f32 trig and arithmetic are idealised
over ℝ.  glam's matrix inverse (used only by `pan` to turn a screen-space
delta into a world-space pivot delta) is external library code; the pivot
delta it produces is abstracted as a parameter `pd`, and every theorem
below holds for all such functions. -/

/-- Real 3-vector. -/
structure Vec3R where
  x : ℝ
  y : ℝ
  z : ℝ

namespace Vec3R

noncomputable def add (a b : Vec3R) : Vec3R := ⟨a.x + b.x, a.y + b.y, a.z + b.z⟩

noncomputable def sub (a b : Vec3R) : Vec3R := ⟨a.x - b.x, a.y - b.y, a.z - b.z⟩

/-- glam `Vec3 * f32` (componentwise, scalar on the right). -/
noncomputable def scaleR (a : Vec3R) (d : ℝ) : Vec3R := ⟨a.x * d, a.y * d, a.z * d⟩

/-- `f32 * Vec3` (scalar on the left), for stating the spec's
`distance · (…)` expression. -/
noncomputable def scaleL (d : ℝ) (a : Vec3R) : Vec3R := ⟨d * a.x, d * a.y, d * a.z⟩

/-- glam `Vec3 + f32` (the scalar is added to every component), as used by
`light_energy += density * step_size * …` in `visit_cloud`. -/
noncomputable def addScalar (a : Vec3R) (d : ℝ) : Vec3R := ⟨a.x + d, a.y + d, a.z + d⟩

end Vec3R

/-- `ArcBall` camera parameters (camera.rs, lines 86-92). -/
structure ArcBall where
  pivot : Vec3R
  distance : ℝ
  yaw : ℝ
  pitch : ℝ

/-- `ArcBallController` sensitivities (camera.rs, lines 95-101). -/
structure ArcBallController where
  panSensitivity : ℝ
  swivelSensitivity : ℝ
  zoomSensitivity : ℝ
  closestZoom : ℝ

/-- The unit-sphere direction `Vec3::new(yaw.cos() * pitch.cos(),
pitch.sin(), yaw.sin() * pitch.cos())` of `ArcBall::eye`. -/
noncomputable def ArcBall.dir (a : ArcBall) : Vec3R :=
  ⟨Real.cos a.yaw * Real.cos a.pitch,
   Real.sin a.pitch,
   Real.sin a.yaw * Real.cos a.pitch⟩

/-- `ArcBall::eye` (camera.rs, lines 119-125): the direction vector scaled
by `distance`; the pivot does not appear. -/
noncomputable def ArcBall.eye (a : ArcBall) : Vec3R := a.dir.scaleR a.distance

/-- Rust `f32::clamp(lo, hi)` for `lo ≤ hi`. -/
noncomputable def rclamp (x lo hi : ℝ) : ℝ := max lo (min x hi)

/-- `ArcBallController::pivot` (camera.rs, lines 129-134): swivel yaw and
pitch by the scaled deltas, then clamp pitch to `[-π/2, π/2]`. -/
noncomputable def pivotCtl (ctl : ArcBallController) (a : ArcBall) (dx dy : ℝ) : ArcBall :=
  { a with
    yaw := a.yaw + dx * ctl.swivelSensitivity
    pitch := rclamp (a.pitch + dy * ctl.swivelSensitivity) (-(Real.pi / 2)) (Real.pi / 2) }

/-- `ArcBallController::pan` (camera.rs, lines 136-148): add to the pivot
the xyz of the inverse view matrix applied to the scaled screen-space
delta.  The inverse-view transform (glam library code) is the abstracted
parameter `pd`. -/
noncomputable def panCtl (pd : ArcBall → ℝ → ℝ → Vec3R) (a : ArcBall) (dx dy : ℝ) : ArcBall :=
  { a with pivot := a.pivot.add (pd a dx dy) }

/-- `ArcBallController::zoom` (camera.rs, lines 150-153):
`distance += delta * zoom_sensitivity^2 * distance` then
`distance = distance.max(closest_zoom)`. -/
noncomputable def zoomCtl (ctl : ArcBallController) (a : ArcBall) (delta : ℝ) : ArcBall :=
  { a with
    distance :=
      max (a.distance + delta * ctl.zoomSensitivity ^ 2 * a.distance) ctl.closestZoom }

/-- A sequence of `pivot` calls: fold of `pivotCtl` over the list of
mouse deltas. -/
noncomputable def applyPivots (ctl : ArcBallController) (a : ArcBall) :
    List (ℝ × ℝ) → ArcBall :=
  fun l => l.foldl (fun st d => pivotCtl ctl st d.1 d.2) a

/-- One controller call: `pivot`, `pan` or `zoom` with its arguments. -/
inductive CamAction where
  | piv : ℝ → ℝ → CamAction
  | pan : ℝ → ℝ → CamAction
  | zoom : ℝ → CamAction

/-- Apply one controller call to the arcball state. -/
noncomputable def applyAction (ctl : ArcBallController) (pd : ArcBall → ℝ → ℝ → Vec3R)
    (a : ArcBall) : CamAction → ArcBall
  | CamAction.piv dx dy => pivotCtl ctl a dx dy
  | CamAction.pan dx dy => panCtl pd a dx dy
  | CamAction.zoom d => zoomCtl ctl a d

/-- Apply a sequence of controller calls. -/
noncomputable def applyActions (ctl : ArcBallController) (pd : ArcBall → ℝ → ℝ → Vec3R)
    (a : ArcBall) (l : List CamAction) : ArcBall :=
  l.foldl (applyAction ctl pd) a

/- ## The per-pixel ray-march loop of `DrawVisitor::visit_cloud`
(src/domain/src/visitor/draw_visitor.rs, lines 105-133)

`Cloud::sample_density` and `Cloud::light_march` live in cloud.rs, which
is not among the provided sources; the claim constrains only the sign of
`sample_density`, so both are abstracted as arbitrary real-valued
functions in the environment.  `dst_limit = dst_inside_box.min(f32::INFINITY
- dst_to_box)` equals `dst_inside_box` whenever `dst_to_box` is finite, so
the environment carries `dstLimit` directly. -/

/-- Immutable per-pixel data of the march loop: entry point and direction
of the ray, step size, travel limit, the cloud's
`light_absorption_through_cloud`, the precomputed `phaze_val`, and the
abstracted `sample_density` / `light_march` functions. -/
structure MarchEnv where
  entry : Vec3R
  rayDir : Vec3R
  stepSize : ℝ
  dstLimit : ℝ
  absorption : ℝ
  phazeVal : ℝ
  sampleDensity : Vec3R → ℝ
  lightMarchF : Vec3R → ℝ

/-- Mutable state of the march loop; `done` records that the loop has
exited (either `dst_travelled` passed `dst_limit` or the early-out
`transmittance < 0.01` fired). -/
structure MarchState where
  dstTravelled : ℝ
  transmittance : ℝ
  lightEnergy : Vec3R
  done : Bool

/-- Loop entry state: `dst_travelled = 0`, `transmittance = 1`,
`light_energy = Vec3::ZERO`. -/
noncomputable def marchInit : MarchState := ⟨0, 1, ⟨0, 0, 0⟩, false⟩

/-- One iteration of the `while dst_travelled < dst_limit` loop
(draw_visitor.rs, lines 115-133): sample the density at
`entry_point + ray_dir * dst_travelled`; if it is positive, accumulate
light energy, attenuate the transmittance by
`exp(-density * step_size * light_absorption_through_cloud)`, and break
when the transmittance drops below 0.01; finally advance
`dst_travelled += step_size`. -/
noncomputable def marchStep (env : MarchEnv) (st : MarchState) : MarchState :=
  if st.done = true then st
  else if st.dstTravelled < env.dstLimit then
    let rayPos := env.entry.add (env.rayDir.scaleR st.dstTravelled)
    let density := env.sampleDensity rayPos
    if 0 < density then
      let lightTransmittance := env.lightMarchF rayPos
      let le2 := st.lightEnergy.addScalar
        (density * env.stepSize * st.transmittance * lightTransmittance * env.phazeVal)
      let t2 := st.transmittance * Real.exp (-density * env.stepSize * env.absorption)
      if t2 < 0.01 then ⟨st.dstTravelled, t2, le2, true⟩
      else ⟨st.dstTravelled + env.stepSize, t2, le2, false⟩
    else ⟨st.dstTravelled + env.stepSize, st.transmittance, st.lightEnergy, false⟩
  else st

/-- The march state after `n` loop iterations. -/
noncomputable def marchIterate (env : MarchEnv) : ℕ → MarchState
  | 0 => marchInit
  | n + 1 => marchStep env (marchIterate env n)

/- ## Corner projection fallback of `visit_cloud`
(draw_visitor.rs, lines 53-61) -/

/-- The constant `width` that `visit_cloud` hardcodes
(`let (width, height) = (1056.0, 900.0)`). -/
def visitCloudWidth : ℚ := 1056

/-- The constant `height` that `visit_cloud` hardcodes. -/
def visitCloudHeight : ℚ := 900

/-- The screen position used for bounding-box corner `i`:
`transform(corner, mvp).unwrap_or(if i < 4 { (width, height) } else
{ Pos2::ZERO })`, with the painter's (fallible) projection abstracted as
the `Option`-valued argument `tf`. -/
def cornerScreenPos (tf : Option (ℚ × ℚ)) (i : ℕ) : ℚ × ℚ :=
  tf.getD (if i < 4 then (visitCloudWidth, visitCloudHeight) else (0, 0))

/-- The claim's version of the fallback, which uses the full canvas
dimensions `(w, h)` instead of the hardcoded constants. -/
def cornerScreenPosClaim (w h : ℚ) (tf : Option (ℚ × ℚ)) (i : ℕ) : ℚ × ℚ :=
  tf.getD (if i < 4 then (w, h) else (0, 0))

/-- Whether a command is the `AddObject` variant. -/
def SceneCommand.isAddObject : SceneCommand → Bool
  | SceneCommand.AddObject _ _ => true
  | _ => false

/-- A concrete cloud parameter bag (all-zero payloads), for evaluating the
command layer on concrete scenes. -/
def cloud0 : Cloud :=
  ⟨0, 0, 0, 0, 0, 0, ⟨0, 0, 0⟩, 0,
   ⟨0, ⟨0, 0, 0, 0⟩, 0, 0⟩, ⟨0, ⟨0, 0, 0, 0⟩, 0, 0⟩,
   0, 0, ⟨0, 0, 0, 0⟩, ⟨0, 0, 0, 0⟩, ⟨0, 0, 0, 0⟩, ⟨0, 0, 0⟩, ⟨0, 0, 0⟩,
   0, 0, 0, 0, ⟨0, 0, 0, 0⟩, ⟨0, 0, 0, 0⟩, ⟨0, 0, 0, 0⟩, 0, 0, 0⟩

/-- A concrete one-entry scene holding a single cloud. -/
def scene0 : Scene := [("a", [Component.cloud cloud0])]

/-! ## Theorems -/

theorem fmax_zero_spec (x : F32) :
    F32.fle (F32.fin 0) ((F32.fin 0).fmax x) = true ∧
    (((F32.fin 0).fmax x) = F32.fin 0 ↔ F32.fle ((F32.fin 0).fmax x) (F32.fin 0) = true) := by
  cases x with
  | nan => simp [F32.fmax, F32.fle]
  | ninf => simp [F32.fmax, F32.fle]
  | pinf => simp [F32.fmax, F32.fle]
  | fin q =>
      rcases lt_or_ge 0 q with h | h
      · have h1 : ¬ q ≤ 0 := not_le.mpr h
        simp [F32.fmax, F32.fle, h, h.le, h.ne', h1]
      · have h2 : ¬ (0 : ℚ) < q := not_lt.mpr h
        simp [F32.fmax, F32.fle, h2]

/-- **C4.** For every bounding box and every ray, the `dst_inside_box`
component returned by `BoundingBox::dst` satisfies `dst_inside_box ≥ 0`
(also across the infinities and NaNs the slab divisions can produce), and
it equals `0` exactly when it is `≤ 0`, i.e. exactly when the ray misses
the box under the miss encoding `dst_inside_box ≤ 0`. -/
theorem c4_dst_inside_nonneg (bb : BoundingBoxF) (o d : Vec3F) :
    F32.fle (F32.fin 0) (bb.dst o d).2 = true ∧
    ((bb.dst o d).2 = F32.fin 0 ↔ F32.fle (bb.dst o d).2 (F32.fin 0) = true) := by
  simp only [BoundingBoxF.dst]
  exact fmax_zero_spec _

/-- **C5.** On the box built from `(-1, 1, -1)` and `(1, 1.5, 1)` and the
ray with origin `(5, 1.25, 0)` and direction `(-1, 0, 0)`,
`BoundingBox::dst` returns exactly `(4.0, 2.0)`. -/
theorem c5_test_bb :
    testBB.dst ⟨F32.fin 5, F32.fin (5/4), F32.fin 0⟩ ⟨F32.fin (-1), F32.fin 0, F32.fin 0⟩ =
      (F32.fin 4, F32.fin 2) := by
  norm_num [BoundingBoxF.dst, testBB, Vec3F.vsub, Vec3F.vdiv, Vec3F.vmin, Vec3F.vmax,
    F32.fsub, F32.fdiv, F32.fmin, F32.fmax]

/-- **C9 counterexample.** On a canvas of 800×600 (any size other than the
hardcoded 1056×900), a corner with index `< 4` whose projection fails is
given the position `(1056, 900)`, not the canvas dimensions `(800, 600)`
the claim prescribes. -/
theorem c9_counterexample :
    cornerScreenPos none 0 ≠ cornerScreenPosClaim 800 600 none 0 := by
  decide

/-- **C9 (amended).** In `visit_cloud`, a corner whose projection succeeds
keeps its projected position; a corner whose projection fails falls back
to the hardcoded constants `(1056, 900)` when its index is `< 4` and to
`(0, 0)` otherwise — these constants equal the canvas dimensions only for
a 1056×900 canvas. -/
theorem c9_corner_fallback (tf : Option (ℚ × ℚ)) (i : ℕ) :
    (∀ p, tf = some p → cornerScreenPos tf i = p) ∧
    (tf = none → i < 4 → cornerScreenPos tf i = (visitCloudWidth, visitCloudHeight)) ∧
    (tf = none → ¬ i < 4 → cornerScreenPos tf i = (0, 0)) := by
  refine ⟨fun p hp => ?_, fun hn hi => ?_, fun hn hi => ?_⟩
  · subst hp; rfl
  · subst hn; simp [cornerScreenPos, hi]
  · subst hn; simp [cornerScreenPos, hi]

/-- Witness for C9: a successfully projected corner keeps its position. -/
theorem c9_witness :
    (some ((3 : ℚ), (4 : ℚ)) = some ((3 : ℚ), (4 : ℚ))) ∧
    cornerScreenPos (some ((3 : ℚ), (4 : ℚ))) 0 = ((3 : ℚ), (4 : ℚ)) :=
  ⟨rfl, (c9_corner_fallback (some (3, 4)) 0).1 (3, 4) rfl⟩

theorem mapAt_idem (n : String) (g : Component → Component)
    (hg : ∀ c, g (g c) = g c) (s : Scene) :
    mapAt n g (mapAt n g s) = mapAt n g s := by
  induction s with
  | nil => rfl
  | cons hd tl ih =>
      obtain ⟨k, l⟩ := hd
      by_cases hk : k = n
      · simp [mapAt, hk, List.map_map, Function.comp_def, hg]
      · simp [mapAt, hk, ih]

/-- **C2.** Every Set* scene command is idempotent: executing it twice on
any scene yields the same scene as executing it once.  The sun commands
are settled against the spec-modelled `Sun` (its source is not provided);
all cloud Set* branches are settled against the source directly. -/
theorem c2_set_idempotent (cmd : SceneCommand) (s : Scene)
    (h : cmd.isSet = true) :
    cmd.exec (cmd.exec s) = cmd.exec s := by
  cases cmd
  case AddObject n c => simp [SceneCommand.isSet] at h
  case GetObject c => simp [SceneCommand.isSet] at h
  case RemoveObject c => simp [SceneCommand.isSet] at h
  all_goals exact mapAt_idem _ _ (fun c => by cases c <;> rfl) s

/-- Witness for C2: `SetNumSteps` applied twice to a concrete one-cloud
scene equals applying it once. -/
theorem c2_witness :
    (SceneCommand.SetNumSteps "a" 3).isSet = true ∧
    (SceneCommand.SetNumSteps "a" 3).exec ((SceneCommand.SetNumSteps "a" 3).exec scene0) =
      (SceneCommand.SetNumSteps "a" 3).exec scene0 :=
  ⟨rfl, c2_set_idempotent (SceneCommand.SetNumSteps "a" 3) scene0 rfl⟩

theorem mapAt_eq_self (n : String) (g : Component → Component) (s : Scene)
    (h : ∀ l, lookupScene n s = some l → ∀ c ∈ l, g c = c) :
    mapAt n g s = s := by
  induction s with
  | nil => rfl
  | cons hd tl ih =>
      obtain ⟨k, l⟩ := hd
      by_cases hk : k = n
      · have hl : ∀ c ∈ l, g c = c := h l (by simp [lookupScene, hk])
        simp [mapAt, hk, List.map_congr_left hl]
      · have htl : ∀ l', lookupScene n tl = some l' → ∀ c ∈ l', g c = c := by
          intro l' hl'
          exact h l' (by simp [lookupScene, hk, hl'])
        simp [mapAt, hk, ih htl]

theorem mapCloud_noop_of_miss (n : String) (g : Cloud → Cloud) (s : Scene)
    (h : ∀ l, lookupScene n s = some l → l.all (fun c => !c.isCloud) = true) :
    mapAt n (Component.mapCloud g) s = s := by
  refine mapAt_eq_self n _ s (fun l hl c hc => ?_)
  have hall := h l hl
  rw [List.all_eq_true] at hall
  have hc' := hall c hc
  cases c <;> simp_all [Component.isCloud, Component.mapCloud]

theorem mapSun_noop_of_miss (n : String) (g : Sun → Sun) (s : Scene)
    (h : ∀ l, lookupScene n s = some l → l.all (fun c => !c.isSun) = true) :
    mapAt n (Component.mapSun g) s = s := by
  refine mapAt_eq_self n _ s (fun l hl c hc => ?_)
  have hall := h l hl
  rw [List.all_eq_true] at hall
  have hc' := hall c hc
  cases c <;> simp_all [Component.isSun, Component.mapSun]

/-- **C3 counterexample.** `AddObject` on an absent target name does not
leave the scene unchanged: on the empty scene it creates the entry, even
though the target name is absent (the claim's miss condition holds). -/
theorem c3_counterexample :
    SceneCommand.missesB (SceneCommand.AddObject "a" (Component.grid ⟨1, 1⟩)) [] = true ∧
    SceneCommand.exec (SceneCommand.AddObject "a" (Component.grid ⟨1, 1⟩)) [] ≠ [] := by
  constructor
  · rfl
  · intro hcl
    simp [SceneCommand.exec, addObject] at hcl

/-- **C3 (amended).** Every `SceneCommand` is a total function of the
scene (the embedding is total by construction), and every command other
than `AddObject` is a silent no-op when its target name is absent or no
component at that name has the kind it addresses (`GetObject` and
`RemoveObject` address nothing and never change the scene).  `AddObject`
is the exception forced by the counterexample: it appends, creating the
entry when the name is absent. -/
theorem c3_missing_target_noop (cmd : SceneCommand) (s : Scene)
    (hadd : cmd.isAddObject = false) (h : cmd.missesB s = true) :
    cmd.exec s = s := by
  cases cmd
  case AddObject n c => simp [SceneCommand.isAddObject] at hadd
  case GetObject c => rfl
  case RemoveObject c => rfl
  case SetSunDistance n v =>
      refine mapSun_noop_of_miss _ _ _ (fun l hl => ?_)
      simp only [SceneCommand.missesB, SceneCommand.targetName, hl] at h
      simpa [SceneCommand.isSet, SceneCommand.addressesCloud] using h
  case SetSunAngle n v =>
      refine mapSun_noop_of_miss _ _ _ (fun l hl => ?_)
      simp only [SceneCommand.missesB, SceneCommand.targetName, hl] at h
      simpa [SceneCommand.isSet, SceneCommand.addressesCloud] using h
  all_goals
    refine mapCloud_noop_of_miss _ _ _ (fun l hl => ?_)
  all_goals
    simp only [SceneCommand.missesB, SceneCommand.targetName, hl] at h
  all_goals
    simpa [SceneCommand.isSet, SceneCommand.addressesCloud] using h

/-- Witness for C3: `SetNumSteps` addressed at an absent name leaves a
concrete scene unchanged. -/
theorem c3_witness :
    ((SceneCommand.SetNumSteps "b" 3).isAddObject = false ∧
     (SceneCommand.SetNumSteps "b" 3).missesB scene0 = true) ∧
    (SceneCommand.SetNumSteps "b" 3).exec scene0 = scene0 :=
  ⟨⟨rfl, by decide⟩, c3_missing_target_noop (SceneCommand.SetNumSteps "b" 3) scene0 rfl (by decide)⟩

/-- **C1 counterexample.** At the state
`pivot = (0,0,0), distance = 1, yaw = 0, pitch = 0`, `ArcBall::eye` returns
`(1, 0, 0)` while `pivot − distance·(cos yaw · cos pitch, sin pitch,
sin yaw · cos pitch)` is `(−1, 0, 0)`: the claimed formula (and hence its
claimed equality with the implemented one) fails. -/
theorem c1_counterexample :
    ¬ (ArcBall.eye ⟨⟨0, 0, 0⟩, 1, 0, 0⟩ =
         Vec3R.sub (⟨0, 0, 0⟩ : Vec3R)
           (Vec3R.scaleL 1 (ArcBall.dir ⟨⟨0, 0, 0⟩, 1, 0, 0⟩)) ∧
       Vec3R.sub (⟨0, 0, 0⟩ : Vec3R)
           (Vec3R.scaleL 1 (ArcBall.dir ⟨⟨0, 0, 0⟩, 1, 0, 0⟩)) =
         Vec3R.scaleR (ArcBall.dir ⟨⟨0, 0, 0⟩, 1, 0, 0⟩) 1) := by
  intro hcl
  have hx := congrArg Vec3R.x hcl.1
  simp only [ArcBall.eye, ArcBall.dir, Vec3R.sub, Vec3R.scaleL, Vec3R.scaleR,
    Real.cos_zero, Real.sin_zero] at hx
  norm_num at hx

/-- **C1 (amended).** `ArcBall::eye` returns
`(cos yaw · cos pitch, sin pitch, sin yaw · cos pitch) · distance`, which
equals `distance · (cos yaw · cos pitch, sin pitch, sin yaw · cos pitch)`;
the pivot does not enter the computation. -/
theorem c1_eye_formula (a : ArcBall) :
    a.eye = Vec3R.scaleL a.distance a.dir ∧ a.eye = Vec3R.scaleR a.dir a.distance := by
  constructor
  · simp [ArcBall.eye, Vec3R.scaleL, Vec3R.scaleR, mul_comm]
  · rfl

theorem rclamp_mem (x lo hi : ℝ) (h : lo ≤ hi) :
    lo ≤ rclamp x lo hi ∧ rclamp x lo hi ≤ hi :=
  ⟨le_max_left lo (min x hi), max_le h (min_le_right x hi)⟩

theorem pi_half_bounds : -(Real.pi / 2) ≤ (Real.pi / 2 : ℝ) := by
  have h := Real.pi_pos
  linarith

/-- **C7.** From any state with pitch in `[−π/2, π/2]`, any finite
sequence of `pivot` calls — any deltas, any swivel sensitivity — leaves
the pitch in `[−π/2, π/2]`. -/
theorem c7_pitch_invariant (ctl : ArcBallController) (a : ArcBall)
    (h1 : -(Real.pi / 2) ≤ a.pitch) (h2 : a.pitch ≤ Real.pi / 2)
    (l : List (ℝ × ℝ)) :
    -(Real.pi / 2) ≤ (applyPivots ctl a l).pitch ∧
    (applyPivots ctl a l).pitch ≤ Real.pi / 2 := by
  induction l generalizing a with
  | nil => exact ⟨h1, h2⟩
  | cons d tl ih =>
      have hc := rclamp_mem (a.pitch + d.2 * ctl.swivelSensitivity)
        (-(Real.pi / 2)) (Real.pi / 2) pi_half_bounds
      exact ih (pivotCtl ctl a d.1 d.2) hc.1 hc.2

/-- Witness for C7: one concrete `pivot` call from the default-like state
with pitch `0` keeps the pitch in range. -/
theorem c7_witness :
    (-(Real.pi / 2) ≤ (0 : ℝ) ∧ (0 : ℝ) ≤ Real.pi / 2) ∧
    (-(Real.pi / 2) ≤ (applyPivots ⟨0, 1, 0, 0⟩ ⟨⟨0, 0, 0⟩, 10, 0, 0⟩ [(1, 1)]).pitch ∧
     (applyPivots ⟨0, 1, 0, 0⟩ ⟨⟨0, 0, 0⟩, 10, 0, 0⟩ [(1, 1)]).pitch ≤ Real.pi / 2) := by
  have h1 : -(Real.pi / 2) ≤ (0 : ℝ) := by
    have := Real.pi_pos
    linarith
  have h2 : (0 : ℝ) ≤ Real.pi / 2 := by
    have := Real.pi_pos
    linarith
  exact ⟨⟨h1, h2⟩, c7_pitch_invariant ⟨0, 1, 0, 0⟩ ⟨⟨0, 0, 0⟩, 10, 0, 0⟩ h1 h2 [(1, 1)]⟩

/-- **C8.** From any state with `distance ≥ closest_zoom`, any finite
sequence of `pivot`, `pan` and `zoom` calls keeps
`distance ≥ closest_zoom` (for every inverse-view pivot-delta function
`pd`); and `zoom(Δ)` computes exactly
`distance = max(closest_zoom, distance + Δ · zoom_sens² · distance)`. -/
theorem c8_distance_invariant (ctl : ArcBallController)
    (pd : ArcBall → ℝ → ℝ → Vec3R) (a : ArcBall)
    (h : ctl.closestZoom ≤ a.distance) (l : List CamAction) :
    ctl.closestZoom ≤ (applyActions ctl pd a l).distance ∧
    ∀ b : ArcBall, ∀ delta : ℝ,
      (zoomCtl ctl b delta).distance =
        max ctl.closestZoom
          (b.distance + delta * ctl.zoomSensitivity ^ 2 * b.distance) := by
  constructor
  · induction l generalizing a with
    | nil => exact h
    | cons act tl ih =>
        refine ih (applyAction ctl pd a act) ?_
        cases act with
        | piv dx dy => exact h
        | pan dx dy => exact h
        | zoom d => exact le_max_right _ _
  · intro b delta
    exact max_comm _ _

/-- Witness for C8: a concrete `zoom` call from distance `1` with
`closest_zoom = 0` keeps the distance at or above `closest_zoom`. -/
theorem c8_witness :
    ((⟨0, 0, 0, 0⟩ : ArcBallController).closestZoom ≤ (1 : ℝ)) ∧
    (⟨0, 0, 0, 0⟩ : ArcBallController).closestZoom ≤
      (applyActions ⟨0, 0, 0, 0⟩ (fun _ _ _ => ⟨0, 0, 0⟩) ⟨⟨0, 0, 0⟩, 1, 0, 0⟩
        [CamAction.zoom 1]).distance := by
  have h : (⟨0, 0, 0, 0⟩ : ArcBallController).closestZoom ≤ (1 : ℝ) := by
    show (0 : ℝ) ≤ 1
    norm_num
  exact ⟨h, (c8_distance_invariant ⟨0, 0, 0, 0⟩ (fun _ _ _ => ⟨0, 0, 0⟩)
    ⟨⟨0, 0, 0⟩, 1, 0, 0⟩ h [CamAction.zoom 1]).1⟩

/-- **C10.** Frame conditions of the arcball controller: `pivot` changes
neither the distance nor the pivot point, `pan` changes neither yaw, pitch
nor distance, and `zoom` changes neither yaw, pitch nor the pivot point —
for every state, every argument, and every inverse-view pivot-delta
function `pd`. -/
theorem c10_frame_conditions (ctl : ArcBallController)
    (pd : ArcBall → ℝ → ℝ → Vec3R) (a : ArcBall) (dx dy dz : ℝ) :
    ((pivotCtl ctl a dx dy).distance = a.distance ∧
     (pivotCtl ctl a dx dy).pivot = a.pivot) ∧
    ((panCtl pd a dx dy).yaw = a.yaw ∧
     (panCtl pd a dx dy).pitch = a.pitch ∧
     (panCtl pd a dx dy).distance = a.distance) ∧
    ((zoomCtl ctl a dz).yaw = a.yaw ∧
     (zoomCtl ctl a dz).pitch = a.pitch ∧
     (zoomCtl ctl a dz).pivot = a.pivot) :=
  ⟨⟨rfl, rfl⟩, ⟨rfl, rfl, rfl⟩, rfl, rfl, rfl⟩

theorem marchStep_transmittance (env : MarchEnv)
    (hs : 0 ≤ env.stepSize) (ha : 0 ≤ env.absorption) (st : MarchState)
    (h0 : 0 ≤ st.transmittance) :
    0 ≤ (marchStep env st).transmittance ∧
    (marchStep env st).transmittance ≤ st.transmittance := by
  simp only [marchStep]
  split_ifs with hdone hlt hdens hbrk
  · exact ⟨h0, le_refl _⟩
  all_goals try exact ⟨h0, le_refl _⟩
  all_goals {
    have harg : -env.sampleDensity
        (env.entry.add (env.rayDir.scaleR st.dstTravelled)) * env.stepSize *
        env.absorption ≤ 0 := by
      have hd := le_of_lt hdens
      nlinarith [mul_nonneg (mul_nonneg hd hs) ha]
    have hexp : Real.exp (-env.sampleDensity
        (env.entry.add (env.rayDir.scaleR st.dstTravelled)) * env.stepSize *
        env.absorption) ≤ 1 := by
      rw [← Real.exp_zero]
      exact Real.exp_le_exp.mpr harg
    exact ⟨mul_nonneg h0 (Real.exp_nonneg _),
      mul_le_of_le_one_right h0 hexp⟩ }

/-- **C6.** In the per-pixel march loop of `visit_cloud`, under the
claim's preconditions (`sample_density` non-negative everywhere,
`step_size ≥ 0`, `light_absorption_through_cloud ≥ 0`), the transmittance
starts at `1`, lies in `[0, 1]` after every iteration, and is monotonically
non-increasing across iterations. -/
theorem c6_transmittance_invariant (env : MarchEnv)
    (hρ : ∀ p, 0 ≤ env.sampleDensity p)
    (hs : 0 ≤ env.stepSize) (ha : 0 ≤ env.absorption) :
    (marchIterate env 0).transmittance = 1 ∧
    (∀ n, 0 ≤ (marchIterate env n).transmittance ∧
          (marchIterate env n).transmittance ≤ 1) ∧
    (∀ n, (marchIterate env (n + 1)).transmittance ≤
          (marchIterate env n).transmittance) := by
  have key : ∀ n, 0 ≤ (marchIterate env n).transmittance ∧
      (marchIterate env n).transmittance ≤ 1 := by
    intro n
    induction n with
    | zero => exact ⟨zero_le_one, le_refl 1⟩
    | succ n ih =>
        have hstep := marchStep_transmittance env hs ha (marchIterate env n) ih.1
        exact ⟨hstep.1, le_trans hstep.2 ih.2⟩
  exact ⟨rfl, key,
    fun n => (marchStep_transmittance env hs ha (marchIterate env n) (key n).1).2⟩

/-- Witness for C6: the all-zero environment satisfies the preconditions,
and the loop's transmittance starts at `1`. -/
theorem c6_witness :
    ((∀ p : Vec3R, (0 : ℝ) ≤
        MarchEnv.sampleDensity ⟨⟨0, 0, 0⟩, ⟨0, 0, 0⟩, 0, 0, 0, 0, fun _ => 0, fun _ => 0⟩ p) ∧
     (0 : ℝ) ≤ MarchEnv.stepSize ⟨⟨0, 0, 0⟩, ⟨0, 0, 0⟩, 0, 0, 0, 0, fun _ => 0, fun _ => 0⟩ ∧
     (0 : ℝ) ≤ MarchEnv.absorption ⟨⟨0, 0, 0⟩, ⟨0, 0, 0⟩, 0, 0, 0, 0, fun _ => 0, fun _ => 0⟩) ∧
    (marchIterate ⟨⟨0, 0, 0⟩, ⟨0, 0, 0⟩, 0, 0, 0, 0, fun _ => 0, fun _ => 0⟩ 0).transmittance = 1 :=
  ⟨⟨fun _ => le_refl 0, le_refl 0, le_refl 0⟩,
   (c6_transmittance_invariant ⟨⟨0, 0, 0⟩, ⟨0, 0, 0⟩, 0, 0, 0, 0, fun _ => 0, fun _ => 0⟩
     (fun _ => le_refl 0) (le_refl 0) (le_refl 0)).1⟩
